import Mathlib

/-!
# Verification of the hpc-connector job-orchestration core

A shallow embedding, in Lean 4, of the job-orchestration core of the
hpc-connector VSCode extension (JavaScript), together with proofs of the
behavioural properties stated in its specification.

Embedded modules:
* `configManager.js`   — cluster path derivation (`getClusterInfo`)
* `safetyManager.js`   — remote-path validation (`validatePath`, `validateDelete`)
* `storageManager.js`  — local job-ledger persistence (`loadJobs`)
* `connectionManager.js` — bounded connection retry (`connectWithRetry`,
  `isAuthenticationError`, `enrichError`)
* `scriptBuilder.js` + `executors/*.js` — SLURM batch-script generation
* `clusterManager.js`  — job submission (`submitJob`), status polling
  (`getJobStatus`), job-id generation (`generateJobId`), remote cleanup
  (`cleanRemoteJob`)

JavaScript strings are modelled by `String`; effectful steps (remote command
execution, file transfer, JSON parsing) are modelled by explicit
`Except String` results supplied through environment records, so every
function here is executable and the control flow of the source is mirrored
match-by-match.
-/

namespace HpcConnector

/-! ## String primitives

The JavaScript code relies on `startsWith`, `includes`, `trim`, `split` and
template interpolation.  These are modelled over `List Char` so that all
predicates compute by structural recursion (and hence reduce in the kernel).
-/

/-- `isPrefixOfL p l` is `true` iff `p` is a prefix of `l` (char lists). -/
def isPrefixOfL : List Char → List Char → Bool
  | [], _ => true
  | _ :: _, [] => false
  | a :: as, b :: bs => a == b && isPrefixOfL as bs

/-- `containsL pat l` is `true` iff `pat` occurs as a contiguous sublist of `l`. -/
def containsL (pat : List Char) : List Char → Bool
  | [] => isPrefixOfL pat []
  | c :: rest => isPrefixOfL pat (c :: rest) || containsL pat rest

/-- JavaScript `s.startsWith(pat)`. -/
def strStartsWith (s pat : String) : Bool := isPrefixOfL pat.data s.data

/-- JavaScript `s.includes(pat)`. -/
def strContains (s pat : String) : Bool := containsL pat.data s.data

/-- Split a char list at every occurrence of the character `c`. -/
def splitOnChar (c : Char) : List Char → List (List Char)
  | [] => [[]]
  | a :: rest =>
    match splitOnChar c rest with
    | [] => [[]]
    | g :: gs => if a == c then [] :: g :: gs else (a :: g) :: gs

/-- JavaScript `s.split(sep)` for a single-character separator. -/
def strSplit (s : String) (c : Char) : List String :=
  (splitOnChar c s.data).map (fun l => (⟨l⟩ : String))

/-- JavaScript `s.trim()`. -/
def strTrim (s : String) : String :=
  ⟨((s.data.dropWhile (·.isWhitespace)).reverse.dropWhile (·.isWhitespace)).reverse⟩

/-- `Array.prototype.join(sep)`. -/
def joinSep (sep : String) : List String → String
  | [] => ""
  | [x] => x
  | x :: y :: rest => x ++ sep ++ joinSep sep (y :: rest)

/-- `Except.isOk`, kept local so it computes by `rfl`. -/
def isOkE {ε α : Type} : Except ε α → Bool
  | .ok _ => true
  | .error _ => false

/-- An apostrophe character (used inside remote shell commands). -/
def quoteCh : Char := '\x27'

/-! ## configManager.js -/

/-- `ConfigManager.SCRATCH_BASE`. -/
def SCRATCH_BASE : String := "/scratch.hpc"

/-- The record returned by `ConfigManager.getClusterInfo()`. -/
structure ClusterInfo where
  host : String
  port : Nat
  username : String
  clusterUsername : String
  scratchBase : String
  scratchDir : String
  jobsDir : String
  venvsDir : String
  deriving Repr, DecidableEq

/-- `ConfigManager.getClusterInfo()`: derives the per-user remote paths from
the configured username (the part before `@` when the username is an
e-mail address). -/
def getClusterInfo (host : String) (port : Nat) (username : String) : ClusterInfo :=
  let clusterUsername :=
    if strContains username "@" then (⟨username.data.takeWhile (· ≠ '@')⟩ : String)
    else username
  { host := host
    port := port
    username := username
    clusterUsername := clusterUsername
    scratchBase := SCRATCH_BASE
    scratchDir := SCRATCH_BASE ++ "/" ++ clusterUsername
    jobsDir := SCRATCH_BASE ++ "/" ++ clusterUsername ++ "/hpc_jobs"
    venvsDir := SCRATCH_BASE ++ "/" ++ clusterUsername ++ "/python_venvs" }

/-! ## safetyManager.js -/

/-- One step of the Node `path.posix.normalize` segment resolution: the stack is
kept most-recent-first; `..` pops a segment (and is dropped at the root of an
absolute path), `.` and empty segments are discarded. -/
def normSegStep (isAbs : Bool) (st : List String) (seg : String) : List String :=
  if seg = "" ∨ seg = "." then st
  else if seg = ".." then
    match st with
    | [] => if isAbs then [] else [".."]
    | top :: rest => if top = ".." then seg :: top :: rest else rest
  else seg :: st

/-- Node `path.posix.normalize`: resolves `.` and `..` segments, collapses
repeated separators, preserves a trailing separator. -/
def normalizePosix (p : String) : String :=
  let isAbs := strStartsWith p "/"
  let segs := strSplit p '/'
  let st := segs.foldl (normSegStep isAbs) []
  let body := joinSep "/" st.reverse
  let r := (if isAbs then "/" else "") ++ body
  let r := if r = "" then "." else r
  if p.data.getLast? = some '/' ∧ r.data.getLast? ≠ some '/' then r ++ "/" else r

/-- `SafetyManager.validatePath`: rejects paths outside the per-user scratch
directory, paths containing `..`, and the base directories themselves.
`Except.error` models the thrown `SECURITY:` error. -/
def validatePath (ci : ClusterInfo) (remotePath : String) : Except String Unit :=
  let normalizedPath := normalizePosix remotePath
  if ¬ (strStartsWith normalizedPath ci.scratchDir = true) then
    .error ("SECURITY: Path outside scratch directory: " ++ remotePath ++
      " (must be in " ++ ci.scratchDir ++ ")")
  else if strContains remotePath ".." then
    .error ("SECURITY: Path traversal not allowed: " ++ remotePath)
  else if normalizedPath = "/" ∨ normalizedPath = ci.scratchBase then
    .error ("SECURITY: Cannot access base directories: " ++ remotePath)
  else
    .ok ()

/-- `SafetyManager.validateDelete`: `validatePath` plus containment in the
jobs directory and protection of the jobs directory itself. -/
def validateDelete (ci : ClusterInfo) (remotePath : String) : Except String Unit :=
  match validatePath ci remotePath with
  | .error e => .error e
  | .ok () =>
    if ¬ (strStartsWith remotePath (ci.jobsDir ++ "/") = true) then
      .error ("SECURITY: Can only delete inside " ++ ci.jobsDir)
    else if remotePath = ci.jobsDir then
      .error "SECURITY: Cannot delete jobs directory itself"
    else
      .ok ()

/-! ## Job data model (`clusterManager.js` / `storageManager.js`) -/

/-- The job-configuration object assembled by the UI layer and threaded
through `submitJob` / `ScriptBuilder.buildScript`.  Optional JavaScript
properties (absent unless the relevant executor dialog set them) are
`Option String`; `none` models `undefined`. -/
structure JobConfig where
  id : String := ""
  name : String := ""
  fileName : String := ""
  partition : String := ""
  gpus : Nat := 0
  cpus : Nat := 1
  memory : String := ""
  time : String := ""
  submitted : String := ""
  inputFiles : List String := []
  pythonEnv : Option String := none
  optimizationLevel : Option String := none
  extraFlags : Option String := none
  includeFlags : Option String := none
  compileCommand : Option String := none
  executeCommand : Option String := none
  cmakeConfigureCommand : Option String := none
  cmakeBuildCommand : Option String := none
  deriving Repr, DecidableEq

/-- JavaScript `a || b` on an optional string property (`undefined` and the
empty string are both falsy). -/
def jsOr (o : Option String) (d : String) : String :=
  match o with
  | none => d
  | some s => if s = "" then d else s

/-- The parsed contents of a remote `status.json` file.  Only the `status`
field is inspected by the orchestrator; the remaining fields of the snapshot
are abstracted into `rest`. -/
structure StatusData where
  status : Option String := none
  rest : String := ""
  deriving Repr, DecidableEq

/-- One record of the local job ledger (`jobs.json`), exactly the object
pushed by `ClusterManager.submitJob`. -/
structure LedgerJob where
  id : String
  slurmId : Option String
  name : String
  fileName : String
  filePath : String
  inputFiles : List String
  remoteDir : String
  submitted : String
  status : String
  config : JobConfig
  statusData : Option StatusData := none
  deriving Repr, DecidableEq

/-! ## storageManager.js -/

/-- `StorageManager.loadJobs`.  `jobsFile` is the cached path (set by
`initialize`, `none` beforehand); `readFile` models `fs.readFileSync`
(`Except.error` = thrown I/O error); `parseJobs` models `JSON.parse` of the
ledger (`none` = thrown parse error).  Any failure inside the `try` block is
caught and turned into the empty list. -/
def loadJobs (jobsFile : Option String)
    (readFile : String → Except String String)
    (parseJobs : String → Option (List LedgerJob)) : Except String (List LedgerJob) :=
  match jobsFile with
  | none => .error "Storage not initialized"
  | some f =>
    match readFile f with
    | .error _ => .ok []
    | .ok content =>
      match parseJobs content with
      | none => .ok []
      | some jobs => .ok jobs

/-! ## connectionManager.js -/

/-- `ConnectionManager.maxRetries`. -/
def maxRetries : Nat := 3

/-- The message fragments classified as authentication failures
(`ConnectionManager.isAuthenticationError`). -/
def authErrorMessages : List String :=
  [ "All configured authentication methods failed"
  , "NO_SSH_KEY"
  , "Authentication failed"
  , "Permission denied" ]

/-- `ConnectionManager.isAuthenticationError`, on the error message. -/
def isAuthenticationError (msg : String) : Bool :=
  authErrorMessages.any (fun m => strContains msg m)

/-- Number a suggestion list `1. …`, `2. …` as in `enrichError`. -/
def numberSuggestions (i : Nat) : List String → List String
  | [] => []
  | s :: rest => (toString (i + 1) ++ ". " ++ s) :: numberSuggestions (i + 1) rest

/-- `ConnectionManager.enrichError`: appends remediation suggestions keyed by
the error category to the original message.  `host` and `port` are the
configured `clusterHost` / `sshPort` values referenced by the refused-connection
hints; `none` models a null error object. -/
def enrichError (host port : String) (err : Option String) : String :=
  match err with
  | none => "Unknown connection error"
  | some msg =>
    let enrichedMessage := if msg = "" then "Connection failed" else msg
    let suggestions :=
      if strContains msg "NO_SSH_KEY" then
        [ "Create SSH key: ssh-keygen -t ed25519 -f ~/.ssh/id_ed25519"
        , "Copy key to server: ssh-copy-id user@host" ]
      else if strContains msg "SSH_TIMEOUT" then
        [ "Check network connection"
        , "Verify VPN is connected (if required)"
        , "Check firewall settings" ]
      else if strContains msg "ECONNREFUSED" then
        [ "Verify host address: " ++ host
        , "Verify SSH port: " ++ port
        , "Check if SSH service is running on cluster" ]
      else if strContains msg "ENOTFOUND" then
        [ "Check host name spelling"
        , "Verify DNS resolution" ]
      else []
    if suggestions ≠ [] then
      enrichedMessage ++ "\n\n💡 Suggestions:\n" ++
        joinSep "\n" (numberSuggestions 0 suggestions)
    else enrichedMessage

/-- The retry loop body of `ConnectionManager.connectWithRetry`.
`att i` is the outcome of the `i`-th call to `establishConnection` (a fresh
handshake); `fuel` is the number of loop iterations left; the `Option String`
is `lastError`.  Returns the surfaced result paired with the number of
handshake attempts actually performed. -/
def connectGo {α : Type} (att : Nat → Except String α) (host port : String) :
    Nat → Nat → Option String → Except String α × Nat
  | _, 0, last => (.error (enrichError host port last), 0)
  | i, fuel + 1, _ =>
    match att i with
    | .ok c => (.ok c, 1)
    | .error e =>
      if isAuthenticationError e then (.error (enrichError host port (some e)), 1)
      else
        let r := connectGo att host port (i + 1) fuel (some e)
        (r.1, r.2 + 1)

/-- `ConnectionManager.connectWithRetry`: up to `maxRetries` handshake
attempts starting from attempt `0` with no recorded last error. -/
def connectWithRetry {α : Type} (att : Nat → Except String α) (host port : String) :
    Except String α :=
  (connectGo att host port 0 maxRetries none).1

/-- The number of handshake attempts performed by `connectWithRetry`. -/
def connectAttemptsMade {α : Type} (att : Nat → Except String α) (host port : String) : Nat :=
  (connectGo att host port 0 maxRetries none).2

/-! ## Path helpers (Node `path.basename` / `path.extname`, posix) -/

/-- Node `path.basename` (for the slash-free and ordinary-path cases used by
the orchestrator: the last nonempty `/`-separated segment). -/
def basename (p : String) : String :=
  match ((strSplit p '/').filter (fun s => s ≠ "")).getLast? with
  | some b => b
  | none => p

/-- Node `path.extname` on a file name: the suffix from the last dot, empty
when there is no dot or the only dot is the leading character. -/
def extname (p : String) : String :=
  let cs := (basename p).data
  let pre := cs.reverse.takeWhile (· ≠ '.')
  if pre.length = cs.length then ""
  else if pre.length + 1 = cs.length then ""
  else ⟨'.' :: pre.reverse⟩

/-- JavaScript `fileName.replace(/\.[^.]+$/, ".out")` (cppExecutor). -/
def replaceExtOut (fileName : String) : String :=
  let cs := fileName.data
  let pre := cs.reverse.takeWhile (· ≠ '.')
  if pre.length < cs.length ∧ 0 < pre.length then
    (⟨cs.take (cs.length - pre.length - 1)⟩ : String) ++ ".out"
  else fileName

/-- JavaScript `s.endsWith(pat)`. -/
def strEndsWith (s pat : String) : Bool := isPrefixOfL pat.data.reverse s.data.reverse

/-- JavaScript `fileName.replace(/\.cu$/, ".out")` (cudaExecutor). -/
def replaceCuOut (fileName : String) : String :=
  if strEndsWith fileName ".cu" then
    (⟨fileName.data.take (fileName.data.length - 3)⟩ : String) ++ ".out"
  else fileName

/-! ## executors/*.js -/

/-- The closed set of executors produced by `ExecutorFactory`. -/
inductive ExecutorKind where
  | python
  | cpp
  | cuda
  | cmake
  deriving Repr, DecidableEq

/-- `ExecutorFactory.createExecutor`: dispatch on the file name
(`CMakeLists.txt` exactly, otherwise by extension); unsupported kinds fail
before any remote interaction. -/
def createExecutor (filePath : String) : Except String ExecutorKind :=
  let fileName := basename filePath
  let fileExt := extname filePath
  if fileName = "CMakeLists.txt" then .ok .cmake
  else if fileExt = ".py" ∨ fileExt = ".ipynb" then .ok .python
  else if fileExt = ".c" ∨ fileExt = ".cpp" then .ok .cpp
  else if fileExt = ".cu" then .ok .cuda
  else .error ("Unsupported file type: " ++ fileExt)

/-- The `validate()` method of each executor. -/
def validateExecutor : ExecutorKind → JobConfig → Except String Unit
  | .python, cfg =>
    match cfg.pythonEnv with
    | none => .error "Python environment not specified"
    | some s => if s = "" then .error "Python environment not specified" else .ok ()
  | .cpp, cfg =>
    match cfg.optimizationLevel with
    | some s =>
      if s = "-O0" ∨ s = "-O1" ∨ s = "-O2" ∨ s = "-O3" then .ok ()
      else .error ("Invalid optimization level: " ++ s)
    | none => .error "Invalid optimization level: undefined"
  | .cuda, cfg =>
    if cfg.compileCommand = some "" then .error "Compilation command cannot be empty"
    else if cfg.executeCommand = some "" then .error "Execution command cannot be empty"
    else if cfg.gpus = 0 then .error "CUDA execution requires at least 1 GPU"
    else .ok ()
  | .cmake, cfg =>
    if cfg.cmakeConfigureCommand = some "" then .error "CMake configure command cannot be empty"
    else if cfg.cmakeBuildCommand = some "" then .error "CMake build command cannot be empty"
    else if cfg.executeCommand = some "" then .error "Execution command cannot be empty"
    else .ok ()

/-- The `buildExecutionCommand(jobDir, fileName)` method of each executor. -/
def buildExecutionCommand : ExecutorKind → JobConfig → String → String → String
  | .python, _, _, fileName =>
    if extname fileName = ".ipynb" then
      "jupyter nbconvert --to notebook --execute --inplace " ++ fileName ++
        " --ExecutePreprocessor.timeout=-1"
    else
      "python " ++ fileName
  | .cpp, cfg, _, fileName =>
    let executable := replaceExtOut fileName
    let compiler := if extname fileName = ".c" then "gcc" else "g++"
    let optimizationLevel := jsOr cfg.optimizationLevel "-O3"
    let extraFlags := jsOr cfg.extraFlags ""
    let includeFlags := jsOr cfg.includeFlags ""
    (compiler ++ " " ++ fileName ++ " -o " ++ executable ++ " " ++ optimizationLevel ++
      " -march=native " ++ extraFlags ++ " " ++ includeFlags) ++ "\n" ++ ("./" ++ executable)
  | .cuda, cfg, _, fileName =>
    let compileCmd := jsOr cfg.compileCommand
      ("nvcc " ++ fileName ++ " -o " ++ replaceCuOut fileName ++ " -O3 -arch=sm_75")
    let executeCmd := jsOr cfg.executeCommand ("./" ++ replaceCuOut fileName)
    compileCmd ++ "\n" ++ executeCmd
  | .cmake, cfg, _, _ =>
    let configureCmd := jsOr cfg.cmakeConfigureCommand
      "cmake -S . -B build -DCMAKE_BUILD_TYPE=Release"
    let buildCmd := jsOr cfg.cmakeBuildCommand "cmake --build build -j $SLURM_CPUS_PER_TASK"
    let executeCmd := jsOr cfg.executeCommand "./build/main"
    joinSep "\n"
      [ "# CMake configuration", configureCmd, "", "# Build", buildCmd, "", "# Execute"
      , executeCmd ]

/-- The `getEnvironmentSetup()` method of each executor. -/
def getEnvironmentSetup : ExecutorKind → JobConfig → ClusterInfo → String
  | .python, cfg, ci =>
    "source " ++ ci.venvsDir ++ "/" ++ (match cfg.pythonEnv with | some s => s | none => "undefined")
      ++ "/bin/activate"
  | .cpp, _, _ => "# No Python environment needed for C/C++"
  | .cuda, _, _ =>
    joinSep "\n"
      [ "# Load CUDA module"
      , "module load cuda"
      , "echo \"CUDA Version: $(nvcc --version | grep release)\""
      , "echo \"GPU Info:\""
      , "nvidia-smi --query-gpu=name,driver_version,memory.total --format=csv,noheader" ]
  | .cmake, cfg, _ =>
    if 0 < cfg.gpus then
      joinSep "\n"
        [ "# Load CUDA module for CMake CUDA support"
        , "module load cuda"
        , "echo \"CUDA Version: $(nvcc --version | grep release)\""
        , "echo \"GPU Info:\""
        , "nvidia-smi --query-gpu=name,driver_version,memory.total --format=csv,noheader" ]
    else "# CMake project (no CUDA)"

/-! ## scriptBuilder.js

Each `_build*` method pushes lines into an array and joins them with `"\n"`;
the functions below return the pushed line lists, and the joined section
strings, exactly in push order.  Literal brace characters of the generated
shell text are written with `\x7b` / `\x7d` escapes. -/

/-- Lines of `ScriptBuilder._buildHeader`. -/
def buildHeaderLines (cfg : JobConfig) (jobDir : String) : List String :=
  [ "#!/bin/bash"
  , "#SBATCH --job-name=" ++ cfg.name
  , "#SBATCH --output=" ++ jobDir ++ "/slurm-%j.out"
  , "#SBATCH --error=" ++ jobDir ++ "/slurm-%j.err"
  , "#SBATCH --partition=" ++ cfg.partition
  , "#SBATCH --nodes=1"
  , "#SBATCH --ntasks=1"
  , "#SBATCH --cpus-per-task=" ++ toString cfg.cpus ]
  ++ (if 0 < cfg.gpus then ["#SBATCH --gres=gpu:" ++ toString cfg.gpus] else [])
  ++ [ "#SBATCH --mem=" ++ cfg.memory
  , "#SBATCH --time=" ++ cfg.time
  , ""
  , "echo \"==========================================\""
  , "echo \"Job ID: $SLURM_JOB_ID\""
  , "echo \"Job Name: " ++ cfg.name ++ "\""
  , "echo \"Running on: $(hostname)\""
  , "echo \"Starting at: $(date +%s)\""
  , "echo \"==========================================\"" ]

/-- `ScriptBuilder._buildHeader`. -/
def buildHeader (cfg : JobConfig) (jobDir : String) : String :=
  joinSep "\n" (buildHeaderLines cfg jobDir)

/-- `ScriptBuilder._buildEnvironment`. -/
def buildEnvironment (envSetup jobDir : String) : String :=
  joinSep "\n"
    [ "# Environment setup"
    , "export OMP_NUM_THREADS=$SLURM_CPUS_PER_TASK"
    , "echo \"OMP_NUM_THREADS: $OMP_NUM_THREADS\""
    , ""
    , envSetup
    , "cd " ++ jobDir ]

/-- Lines of `ScriptBuilder._buildExecution`. -/
def buildExecutionLines (cfg : JobConfig) (executionCommand : String) : List String :=
  [ "# Execution"
  , "START_TIME=$(date +%s)"
  , ""
  , "echo \"Executing: " ++ cfg.fileName ++ "\""
  , ""
  , "# Capture stdout and stderr separately"
  , "(" ++ executionCommand ++ ") > execution_log.txt 2> execution_errors.txt"
  , ""
  , "EXIT_CODE=$?"
  , "END_TIME=$(date +%s)"
  , "DURATION=$((END_TIME - START_TIME))" ]

/-- `ScriptBuilder._buildExecution`. -/
def buildExecution (cfg : JobConfig) (executionCommand : String) : String :=
  joinSep "\n" (buildExecutionLines cfg executionCommand)

/-- `ScriptBuilder._buildStatusCapture`: the shell block that computes the
output-file manifest and writes `status.json` using shell string building. -/
def buildStatusCapture (cfg : JobConfig) (jobDir : String) : String :=
  let inputFilesList :=
    joinSep ", " (cfg.inputFiles.map (fun f => "\"" ++ basename f ++ "\""))
  joinSep "\n"
    [ "# Capture metadata"
    , "OUTPUT_FILES=$(ls -1 " ++ jobDir ++
        " 2>/dev/null | grep -v -e \"job.sbatch\" -e \"slurm-\" -e \"status.json\"" ++
        " -e \"execution_\" -e \"" ++ cfg.fileName ++ "\" $(for f in " ++
        joinSep " " (cfg.inputFiles.map basename) ++
        "; do echo \"-e \\\"$f\\\"\"; done) || echo \"\")"
    , ""
    , "if [ $EXIT_CODE -eq 0 ]; then"
    , "    JOB_STATUS=\"COMPLETED\""
    , "else"
    , "    JOB_STATUS=\"FAILED\""
    , "fi"
    , ""
    , "HOSTNAME=$(hostname)"
    , ""
    , "# Format timestamps"
    , "if date --version >/dev/null 2>&1; then"
    , "    START_ISO=$(date -d @$START_TIME -Iseconds)"
    , "    END_ISO=$(date -d @$END_TIME -Iseconds)"
    , "else"
    , "    START_ISO=$(date -u -r $START_TIME +\"%Y-%m-%dT%H:%M:%S+00:00\")"
    , "    END_ISO=$(date -u -r $END_TIME +\"%Y-%m-%dT%H:%M:%S+00:00\")"
    , "fi"
    , ""
    , "# Format output files as JSON array (without jq)"
    , "OUTPUT_JSON=\"[\""
    , "FIRST=true"
    , "while IFS= read -r file; do"
    , "    if [ -n \"$file\" ]; then"
    , "        if [ \"$FIRST\" = true ]; then"
    , "            OUTPUT_JSON=\"$\x7bOUTPUT_JSON\x7d\\\"$\x7bfile\x7d\\\"\""
    , "            FIRST=false"
    , "        else"
    , "            OUTPUT_JSON=\"$\x7bOUTPUT_JSON\x7d, \\\"$\x7bfile\x7d\\\"\""
    , "        fi"
    , "    fi"
    , "done <<< \"$OUTPUT_FILES\""
    , "OUTPUT_JSON=\"$\x7bOUTPUT_JSON\x7d]\""
    , ""
    , "# Write status.json"
    , "cat > " ++ jobDir ++ "/status.json << EOFSTATUS"
    , "\x7b"
    , "  \"jobId\": \"" ++ cfg.id ++ "\","
    , "  \"slurmId\": \"$SLURM_JOB_ID\","
    , "  \"status\": \"$JOB_STATUS\","
    , "  \"submitted\": \"" ++ cfg.submitted ++ "\","
    , "  \"started\": \"$START_ISO\","
    , "  \"completed\": \"$END_ISO\","
    , "  \"duration\": $DURATION,"
    , "  \"exitCode\": $EXIT_CODE,"
    , "  \"resources\": \x7b"
    , "    \"partition\": \"" ++ cfg.partition ++ "\","
    , "    \"gpus\": " ++ toString cfg.gpus ++ ","
    , "    \"cpus\": " ++ toString cfg.cpus ++ ","
    , "    \"memory\": \"" ++ cfg.memory ++ "\","
    , "    \"timeLimit\": \"" ++ cfg.time ++ "\""
    , "  \x7d,"
    , "  \"files\": \x7b"
    , "    \"script\": \"" ++ cfg.fileName ++ "\","
    , "    \"inputs\": [" ++ inputFilesList ++ "],"
    , "    \"outputs\": $OUTPUT_JSON"
    , "  \x7d,"
    , "  \"pythonEnv\": \"" ++ jsOr cfg.pythonEnv "N/A" ++ "\","
    , "  \"node\": \"$HOSTNAME\","
    , "  \"errors\": []"
    , "\x7d"
    , "EOFSTATUS" ]

/-- `ScriptBuilder._buildFooter`. -/
def buildFooter : String :=
  joinSep "\n"
    [ "# Final status"
    , "if [ $EXIT_CODE -eq 0 ]; then"
    , "    echo \"Job completed successfully\""
    , "else"
    , "    echo \"Job failed with exit code $EXIT_CODE\""
    , "fi"
    , ""
    , "echo \"==========================================\""
    , "echo \"Finished at: $(date)\""
    , "echo \"Duration: $DURATION seconds\""
    , "echo \"==========================================\""
    , ""
    , "echo \"Output files: execution_log.txt, execution_errors.txt\"" ]

/-- `ScriptBuilder.buildScript`: selects and validates the executor, builds
the five sections, joins them with blank lines.  `Except.error` models the
validation (or unsupported-file-type) exceptions, raised before any remote
interaction. -/
def buildScript (cfg : JobConfig) (ci : ClusterInfo) : Except String String :=
  let jobDir := ci.jobsDir ++ "/" ++ cfg.id
  match createExecutor cfg.fileName with
  | .error e => .error e
  | .ok ex =>
    match validateExecutor ex cfg with
    | .error e => .error e
    | .ok () =>
      let executionCommand := buildExecutionCommand ex cfg jobDir cfg.fileName
      let envSetup := getEnvironmentSetup ex cfg ci
      .ok (joinSep "\n\n"
        [ buildHeader cfg jobDir
        , buildEnvironment envSetup jobDir
        , buildExecution cfg executionCommand
        , buildStatusCapture cfg jobDir
        , buildFooter ])

/-! ## clusterManager.js — job-id generation

`generateJobId` formats `new Date()`:
`toISOString()` gives `YYYY-MM-DDTHH:MM:SS.sssZ`; the code deletes everything
from the first dot, maps `:` to `-`, and appends the millisecond component
padded to three digits.  A `Date` is modelled by its broken-down UTC
components (`DateTime`); the fixed-width zero-padded rendering of `toISOString` is
modelled digit by digit. -/

/-- Broken-down UTC time with millisecond resolution (the observable content
of a JavaScript `Date`). -/
structure DateTime where
  year : Nat
  month : Nat
  day : Nat
  hour : Nat
  minute : Nat
  second : Nat
  ms : Nat
  deriving Repr, DecidableEq

/-- The decimal digit character for `n ≤ 9`. -/
def digitChar : Nat → Char
  | 0 => '0'
  | 1 => '1'
  | 2 => '2'
  | 3 => '3'
  | 4 => '4'
  | 5 => '5'
  | 6 => '6'
  | 7 => '7'
  | 8 => '8'
  | _ => '9'

/-- Two-digit zero-padded rendering (for values `≤ 99`). -/
def pad2 (n : Nat) : List Char := [digitChar (n / 10), digitChar (n % 10)]

/-- Three-digit zero-padded rendering (for values `≤ 999`);
`String(ms).padStart(3, "0")`. -/
def pad3 (n : Nat) : List Char := [digitChar (n / 100), digitChar (n / 10 % 10), digitChar (n % 10)]

/-- Four-digit zero-padded rendering (for values `≤ 9999`). -/
def pad4 (n : Nat) : List Char :=
  [digitChar (n / 1000), digitChar (n / 100 % 10), digitChar (n / 10 % 10), digitChar (n % 10)]

/-- `Date.prototype.toISOString`: `YYYY-MM-DDTHH:MM:SS.sssZ`. -/
def toISOString (dt : DateTime) : String :=
  ⟨pad4 dt.year ++ '-' :: pad2 dt.month ++ '-' :: pad2 dt.day ++ 'T' :: pad2 dt.hour ++
    ':' :: pad2 dt.minute ++ ':' :: pad2 dt.second ++ '.' :: pad3 dt.ms ++ ['Z']⟩

/-- The character class kept by `replace(/\..+/, "")`: everything before the
first dot. -/
def notDot (c : Char) : Bool := c ≠ '.'

/-- The character mapping of `replace(/:/g, "-")`. -/
def colonToDash (c : Char) : Char := if c = ':' then '-' else c

/-- `ClusterManager.generateJobId`: `replace(/T/, "T")` is the identity,
`replace(/\..+/, "")` deletes from the first dot to the end, `replace(/:/g, "-")`
maps colons to dashes, and the millisecond component is appended zero-padded. -/
def generateJobId (now : DateTime) : String :=
  let timestamp := ((toISOString now).data.takeWhile notDot).map colonToDash
  (⟨timestamp⟩ : String) ++ "-" ++ (⟨pad3 now.ms⟩ : String)

/-- The component ranges of a broken-down UTC time (with the four-digit year
range in which `toISOString` uses the `YYYY` form). -/
def ValidDT (dt : DateTime) : Prop :=
  dt.year ≤ 9999 ∧ 1 ≤ dt.month ∧ dt.month ≤ 12 ∧ 1 ≤ dt.day ∧ dt.day ≤ 31 ∧
    dt.hour ≤ 23 ∧ dt.minute ≤ 59 ∧ dt.second ≤ 59 ∧ dt.ms ≤ 999

/-- `a` denotes a strictly earlier instant than `b`: lexicographic comparison
of broken-down UTC components, which for valid components agrees with
comparison of millisecond epoch timestamps. -/
def chronoLt (a b : DateTime) : Prop :=
  a.year < b.year ∨ (a.year = b.year ∧ (a.month < b.month ∨ (a.month = b.month ∧
    (a.day < b.day ∨ (a.day = b.day ∧ (a.hour < b.hour ∨ (a.hour = b.hour ∧
      (a.minute < b.minute ∨ (a.minute = b.minute ∧ (a.second < b.second ∨
        (a.second = b.second ∧ a.ms < b.ms)))))))))))

/-- Strict lexicographic order on character lists (JavaScript string `<` for
the code-point range used here). -/
def lexLt : List Char → List Char → Bool
  | _, [] => false
  | [], _ :: _ => true
  | a :: as, b :: bs =>
    if a.toNat < b.toNat then true
    else if b.toNat < a.toNat then false
    else lexLt as bs

/-! ## clusterManager.js — submission and polling -/

/-- The `{stdout, stderr, code, signal}` object resolved by
`executeCommand`. -/
structure CmdResult where
  stdout : String := ""
  stderr : String := ""
  deriving Repr, DecidableEq

/-- The effectful collaborators of `ClusterManager`, as observed by one
operation: `ensureStorage` (storage initialization), `execCommand`
(`executeCommand` keyed by the remote command string), `uploadFile`
(keyed by local and remote path), `writeTmpScript` (the local
`fs.writeFileSync` of the generated batch script), and `parseStatusJson`
(`JSON.parse` of a `status.json` body, `none` modelling a thrown parse
error).  `Except.error` models a thrown/rejected call. -/
structure RemoteEnv where
  ensureStorage : Except String Unit := .ok ()
  execCommand : String → Except String CmdResult
  uploadFile : String → String → Except String Unit := fun _ _ => .ok ()
  writeTmpScript : Except String Unit := .ok ()
  parseStatusJson : String → Option StatusData := fun _ => none

/-- The input-file upload loop of `submitJob` (upload preserving base
names, aborting on the first failure). -/
def uploadInputFiles (env : RemoteEnv) (remoteJobDir : String) :
    List String → Except String Unit
  | [] => .ok ()
  | f :: fs =>
    match env.uploadFile f (remoteJobDir ++ "/" ++ basename f) with
    | .error e => .error e
    | .ok _ => uploadInputFiles env remoteJobDir fs

/-- The pattern of the scheduler success message. -/
def sbatchPat : List Char := "Submitted batch job ".data

/-- Scan for `/Submitted batch job (\d+)/` and return the captured digits. -/
def findSbatch : List Char → Option String
  | [] => none
  | c :: rest =>
    if isPrefixOfL sbatchPat (c :: rest) then
      let digits := ((c :: rest).drop sbatchPat.length).takeWhile (·.isDigit)
      if digits.isEmpty then findSbatch rest else some ⟨digits⟩
    else findSbatch rest

/-- `stdout.match(/Submitted batch job (\d+)/)`: the extracted SLURM id. -/
def parseSbatchId (stdout : String) : Option String := findSbatch stdout.data

/-- The mutation of the job configuration performed at the top of
`submitJob` (id, file name, submission timestamp, input-file list). -/
def submitConfig (cfg0 : JobConfig) (filePath : String) (inputFiles : List String)
    (now : DateTime) : JobConfig :=
  { cfg0 with
    id := generateJobId now, fileName := basename filePath,
    submitted := toISOString now, inputFiles := inputFiles }

/-- `ClusterManager.submitJob`: the submission sequence.  `ledger` is the
job list read by `loadJobs`; the second component of the result is the list
passed to `saveJobs` (unchanged whenever a step fails).  `now` is the clock
reading used for the job id and submission timestamp. -/
def submitJob (env : RemoteEnv) (ci : ClusterInfo) (ledger : List LedgerJob)
    (filePath : String) (inputFiles : List String) (cfg0 : JobConfig) (now : DateTime) :
    Except String (String × Option String) × List LedgerJob :=
  match env.ensureStorage with
  | .error e => (.error e, ledger)
  | .ok _ =>
    let fileName := basename filePath
    let jobId := generateJobId now
    let cfg : JobConfig := submitConfig cfg0 filePath inputFiles now
    let remoteJobDir := ci.jobsDir ++ "/" ++ jobId
    match env.execCommand ("mkdir -p " ++ remoteJobDir) with
    | .error e => (.error e, ledger)
    | .ok _ =>
      match env.uploadFile filePath (remoteJobDir ++ "/" ++ fileName) with
      | .error e => (.error e, ledger)
      | .ok _ =>
        match uploadInputFiles env remoteJobDir inputFiles with
        | .error e => (.error e, ledger)
        | .ok _ =>
          match buildScript cfg ci with
          | .error e => (.error e, ledger)
          | .ok _slurmScript =>
            match env.writeTmpScript with
            | .error e => (.error e, ledger)
            | .ok _ =>
              match env.uploadFile ("/tmp/job_" ++ jobId ++ ".sbatch")
                  (remoteJobDir ++ "/job.sbatch") with
              | .error e => (.error e, ledger)
              | .ok _ =>
                match env.execCommand ("cd " ++ remoteJobDir ++ " && sbatch job.sbatch") with
                | .error e => (.error e, ledger)
                | .ok r =>
                  let slurmId := parseSbatchId r.stdout
                  let newRecord : LedgerJob := {
                    id := jobId, slurmId := slurmId, name := cfg.name,
                    fileName := fileName, filePath := filePath,
                    inputFiles := inputFiles, remoteDir := remoteJobDir,
                    submitted := cfg.submitted, status := "PENDING", config := cfg }
                  (.ok (jobId, slurmId), ledger ++ [newRecord])

/-- The queue-listing command issued per job (`squeue`, state format, no header). -/
def squeueCmd (sid : String) : String :=
  "squeue -j " ++ sid ++ " -o " ++ (⟨[quoteCh, '%', 'T', quoteCh]⟩ : String) ++ " -h"

/-- The metadata-file read command issued per job. -/
def catStatusCmd (remoteDir : String) : String :=
  "cat " ++ remoteDir ++ "/status.json 2>/dev/null"

/-- The `status.json` interpretation inside `getJobStatus`: a truthy `status`
field containing neither `$` nor `[` is adopted together with the full
snapshot; otherwise the job is conservatively marked `COMPLETED`. -/
def statusFromSnap (sd : StatusData) (job : LedgerJob) : LedgerJob :=
  match sd.status with
  | some s =>
    if s ≠ "" ∧ strContains s "$" = false ∧ strContains s "[" = false then
      { job with status := s, statusData := some sd }
    else { job with status := "COMPLETED" }
  | none => { job with status := "COMPLETED" }

/-- The inner `try`/`catch` of `getJobStatus`: read `status.json`, parse it,
interpret it; any error (unreadable file or parse failure) degrades the job
to `UNKNOWN`, as does an absent/empty file. -/
def checkStatusJson (env : RemoteEnv) (job : LedgerJob) : LedgerJob :=
  match env.execCommand (catStatusCmd job.remoteDir) with
  | .error _ => { job with status := "UNKNOWN" }
  | .ok r =>
    if strTrim r.stdout ≠ "" then
      match env.parseStatusJson r.stdout with
      | none => { job with status := "UNKNOWN" }
      | some sd => statusFromSnap sd job
    else { job with status := "UNKNOWN" }

/-- The per-job body of the `getJobStatus` loop: jobs without a scheduler id
or already terminal are left untouched; otherwise the queue is consulted and,
when the job has left the queue, the metadata file; the outer `catch` turns a
queue-lookup failure into `UNKNOWN`. -/
def pollJob (env : RemoteEnv) (job : LedgerJob) : LedgerJob :=
  match job.slurmId with
  | none => job
  | some sid =>
    if job.status = "COMPLETED" ∨ job.status = "FAILED" then job
    else
      match env.execCommand (squeueCmd sid) with
      | .error _ => { job with status := "UNKNOWN" }
      | .ok r =>
        if strTrim r.stdout ≠ "" then { job with status := strTrim r.stdout }
        else checkStatusJson env job

/-- One poll pass of `ClusterManager.getJobStatus` over the loaded ledger. -/
def getJobStatusPass (env : RemoteEnv) (jobs : List LedgerJob) : List LedgerJob :=
  jobs.map (pollJob env)

/-- `ClusterManager.getJobStatus`: polls every job, persists the full updated
ledger (first component = the list passed to `saveJobs`), and returns the
active jobs (second component). -/
def getJobStatus (env : RemoteEnv) (jobs : List LedgerJob) :
    List LedgerJob × List LedgerJob :=
  let updated := getJobStatusPass env jobs
  (updated, updated.filter (fun j => !(j.status == "COMPLETED") && !(j.status == "FAILED")))

/-- The status-query failure modes of one job in a poll pass: the queue
lookup raised, or the job left the queue and the metadata read raised, or the
metadata file was read but its body failed to parse. -/
def queryFails (env : RemoteEnv) (job : LedgerJob) (sid : String) : Prop :=
  (∃ e, env.execCommand (squeueCmd sid) = .error e) ∨
  (∃ r, env.execCommand (squeueCmd sid) = .ok r ∧ strTrim r.stdout = "" ∧
    ((∃ e, env.execCommand (catStatusCmd job.remoteDir) = .error e) ∨
     (∃ r2, env.execCommand (catStatusCmd job.remoteDir) = .ok r2 ∧
       strTrim r2.stdout ≠ "" ∧ env.parseStatusJson r2.stdout = none)))

/-! ## clusterManager.js — remote cleanup -/

/-- `ClusterManager.cleanRemoteJob`: looks the job up in the ledger and issues
`rm -rf <remoteDir>` over the connection.  The returned string is the remote
command handed to `executeCommand`; no path validation is performed before
it is issued. -/
def cleanRemoteJob (jobs : List LedgerJob) (jobId : String) : Except String String :=
  match jobs.find? (fun j => j.id == jobId) with
  | none => .error ("Job " ++ jobId ++ " not found")
  | some job => .ok ("rm -rf " ++ job.remoteDir)

/-! ## Concrete instances used in the claim statements -/

/-- A representative cluster configuration (username in e-mail form, as on
the target cluster). -/
def demoCluster : ClusterInfo := getClusterInfo "hpc.example.com" 22 "alice@studio.unibo.it"

/-- A remote directory that escapes the per-user scratch root via `..`. -/
def traversalDir : String := "/scratch.hpc/alice/hpc_jobs/../../../etc"

/-- A ledger record whose remote directory is the traversal path above. -/
def traversalJob : LedgerJob :=
  { id := "2024-06-01T12-00-00-000"
    slurmId := some "12345"
    name := "demo"
    fileName := "run.py"
    filePath := "/home/alice/run.py"
    inputFiles := []
    remoteDir := traversalDir
    submitted := "2024-06-01T12:00:00.000Z"
    status := "PENDING"
    config := {} }

/-- The job configuration of the end-to-end compiled-native scenario:
CPU count 4, GPU count 0, memory `16G`, time limit `02:00:00`, a valid
optimization level. -/
def c7cfg : JobConfig :=
  { id := "2024-06-01T12-00-00-000"
    name := "bench"
    fileName := "prog.c"
    partition := "l40"
    gpus := 0
    cpus := 4
    memory := "16G"
    time := "02:00:00"
    optimizationLevel := some "-O2" }

/-- The remote job directory of the scenario job. -/
def c7jobDir : String := demoCluster.jobsDir ++ "/" ++ c7cfg.id

/-- A fixed clock reading. -/
def demoNow : DateTime :=
  { year := 2024, month := 6, day := 1, hour := 12, minute := 0, second := 0, ms := 0 }

/-- A strictly later clock reading (same second, later millisecond). -/
def demoLater : DateTime :=
  { year := 2024, month := 6, day := 1, hour := 12, minute := 0, second := 0, ms := 1 }

/-- An environment in which every remote step succeeds and the scheduler
answers with its success message. -/
def happyEnv : RemoteEnv :=
  { ensureStorage := .ok ()
    execCommand := fun _ => .ok { stdout := "Submitted batch job 777" }
    uploadFile := fun _ _ => .ok ()
    writeTmpScript := .ok ()
    parseStatusJson := fun _ => none }

/-- An environment in which every remote command fails (network down). -/
def downEnv : RemoteEnv :=
  { execCommand := fun _ => .error "connect ETIMEDOUT"
    parseStatusJson := fun _ => none }

/-- An environment in which the scheduler queue reports `RUNNING` for every
queried job. -/
def runningEnv : RemoteEnv :=
  { execCommand := fun _ => .ok { stdout := "RUNNING\n" }
    parseStatusJson := fun _ => none }

/-- A terminal ledger record (already `COMPLETED`). -/
def doneJob : LedgerJob := { traversalJob with status := "COMPLETED" }

/-! # Theorems -/

/-! ### C10 — the ledger loader never raises once storage is initialized -/

/-- C10: once storage is initialized (`jobsFile` set), `loadJobs` always
returns successfully; a failed file read (missing/unreadable ledger) and a
failed `JSON.parse` (corrupted ledger) both yield the empty list, so a
corrupted ledger is indistinguishable from an empty one at this interface. -/
theorem loadJobs_initialized_never_raises (f : String)
    (readFile : String → Except String String)
    (parseJobs : String → Option (List LedgerJob)) :
    (∃ l, loadJobs (some f) readFile parseJobs = .ok l) ∧
    (∀ e, readFile f = .error e → loadJobs (some f) readFile parseJobs = .ok []) ∧
    (∀ c, readFile f = .ok c → parseJobs c = none →
      loadJobs (some f) readFile parseJobs = .ok []) := by
  refine ⟨?_, ?_, ?_⟩
  · cases h : readFile f with
    | error e => exact ⟨[], by simp [loadJobs, h]⟩
    | ok c =>
      cases hp : parseJobs c with
      | none => exact ⟨[], by simp [loadJobs, h, hp]⟩
      | some l => exact ⟨l, by simp [loadJobs, h, hp]⟩
  · intro e he
    simp [loadJobs, he]
  · intro c hc hp
    simp [loadJobs, hc, hp]

/-- Witness for C10: a missing ledger file loads as the empty list. -/
theorem loadJobs_initialized_never_raises_witness :
    loadJobs (some "jobs.json") (fun _ => .error "ENOENT") (fun _ => none) = .ok [] :=
  (loadJobs_initialized_never_raises "jobs.json" (fun _ => .error "ENOENT")
    (fun _ => none)).2.1 "ENOENT" rfl

/-! ### C2 — remote deletion is issued without path validation (code bug)

`SafetyManager.validatePath` / `validateDelete` do reject `..`-containing
and root-escaping paths, but `ClusterManager.cleanRemoteJob` (like every
other remote operation in `clusterManager.js`) never invokes the validator:
the `rm -rf` command is issued for a traversal path that `validateDelete`
would have rejected. -/

/-- C2: evaluated at a ledger record whose remote directory escapes the
per-user root via `..`, `cleanRemoteJob` issues the remove command anyway,
although both the delete validator and the plain path validator reject that
path. -/
theorem cleanRemoteJob_no_validation :
    cleanRemoteJob [traversalJob] "2024-06-01T12-00-00-000"
        = .ok ("rm -rf " ++ traversalDir) ∧
    isOkE (validateDelete demoCluster traversalDir) = false ∧
    isOkE (validatePath demoCluster traversalDir) = false :=
  ⟨rfl, by decide, by decide⟩

/-! ### C5 — bounded connection retry, fail-fast on authentication errors -/

/-- The number of handshake attempts made by the retry loop never exceeds
the remaining fuel. -/
theorem connectGo_count_le {α : Type} (att : Nat → Except String α) (host port : String) :
    ∀ fuel i last, (connectGo att host port i fuel last).2 ≤ fuel := by
  intro fuel
  induction fuel with
  | zero => intro i last; simp [connectGo]
  | succ n ih =>
    intro i last
    simp only [connectGo]
    cases h : att i with
    | ok c => simp
    | error e =>
      simp only
      split
      · simp
      · have := ih (i + 1) (some e)
        simp
        omega

/-- An authentication-class failure aborts the retry loop at whatever
attempt it occurs: if the first `k` attempts fail with non-authentication
errors and attempt `k` (still within the fuel) fails with an
authentication-class error, the loop surfaces the enriched error from
attempt `k` and performs exactly `k + 1` handshake attempts. -/
theorem connectGo_auth_abort {α : Type} (att : Nat → Except String α) (host port : String) :
    ∀ (k fuel i : Nat) (last : Option String) (e : String), k < fuel →
      (∀ j, j < k → ∃ ej, att (i + j) = .error ej ∧ isAuthenticationError ej = false) →
      att (i + k) = .error e → isAuthenticationError e = true →
      connectGo att host port i fuel last =
        (.error (enrichError host port (some e)), k + 1) := by
  intro k
  induction k with
  | zero =>
    intro fuel i last e hk _hprev hak hauth
    cases fuel with
    | zero => omega
    | succ n =>
      rw [show i + 0 = i from rfl] at hak
      simp only [connectGo, hak, hauth, if_true]
  | succ k ih =>
    intro fuel i last e hk hprev hak hauth
    cases fuel with
    | zero => omega
    | succ n =>
      obtain ⟨e0, he0, hna0⟩ := hprev 0 (by omega)
      rw [show i + 0 = i from rfl] at he0
      have hrec := ih n (i + 1) (some e0) e (by omega)
        (fun j hj => by
          obtain ⟨ej, hej, hnaj⟩ := hprev (j + 1) (by omega)
          refine ⟨ej, ?_, hnaj⟩
          rw [show i + 1 + j = i + (j + 1) by omega]
          exact hej)
        (by
          rw [show i + 1 + k = i + (k + 1) by omega]
          exact hak)
        hauth
      simp only [connectGo, he0, hna0, Bool.false_eq_true, if_false, hrec]

/-- C5: connection acquisition makes at most 3 handshake attempts; an
authentication-class failure at any attempt `k` (after `k` non-auth
failures) aborts immediately — the enriched error propagates and exactly
`k + 1` attempts occur; in particular an authentication failure on the
first attempt means exactly one attempt; three non-authentication failures
exhaust the retry budget and surface the enriched last error after exactly
three attempts. -/
theorem connectWithRetry_bounds {α : Type} (host port : String) :
    (∀ att : Nat → Except String α, connectAttemptsMade att host port ≤ maxRetries) ∧
    (∀ (att : Nat → Except String α) (k : Nat) e, k < maxRetries →
      (∀ j, j < k → ∃ ej, att j = .error ej ∧ isAuthenticationError ej = false) →
      att k = .error e → isAuthenticationError e = true →
      connectWithRetry att host port = .error (enrichError host port (some e)) ∧
      connectAttemptsMade att host port = k + 1) ∧
    (∀ (att : Nat → Except String α) e, att 0 = .error e → isAuthenticationError e = true →
      connectWithRetry att host port = .error (enrichError host port (some e)) ∧
      connectAttemptsMade att host port = 1) ∧
    (∀ (att : Nat → Except String α) e0 e1 e2,
      att 0 = .error e0 → att 1 = .error e1 → att 2 = .error e2 →
      isAuthenticationError e0 = false → isAuthenticationError e1 = false →
      isAuthenticationError e2 = false →
      connectWithRetry att host port = .error (enrichError host port (some e2)) ∧
      connectAttemptsMade att host port = 3) := by
  have habort : ∀ (att : Nat → Except String α) (k : Nat) e, k < maxRetries →
      (∀ j, j < k → ∃ ej, att j = .error ej ∧ isAuthenticationError ej = false) →
      att k = .error e → isAuthenticationError e = true →
      connectWithRetry att host port = .error (enrichError host port (some e)) ∧
      connectAttemptsMade att host port = k + 1 := by
    intro att k e hk hprev hak hauth
    have h := connectGo_auth_abort att host port k maxRetries 0 none e hk
      (fun j hj => by
        obtain ⟨ej, hej, hnaj⟩ := hprev j hj
        exact ⟨ej, by rw [Nat.zero_add]; exact hej, hnaj⟩)
      (by rw [Nat.zero_add]; exact hak)
      hauth
    exact ⟨by rw [connectWithRetry, h], by rw [connectAttemptsMade, h]⟩
  refine ⟨?_, habort, ?_, ?_⟩
  · intro att
    exact connectGo_count_le att host port maxRetries 0 none
  · intro att e h0 hauth
    exact habort att 0 e (by decide) (fun j hj => absurd hj (Nat.not_lt_zero j)) h0 hauth
  · intro att e0 e1 e2 h0 h1 h2 ha0 ha1 ha2
    constructor
    · simp [connectWithRetry, maxRetries, connectGo, h0, h1, h2, ha0, ha1, ha2]
    · simp [connectAttemptsMade, maxRetries, connectGo, h0, h1, h2, ha0, ha1, ha2]

/-- Witness for C5: after a transient `SSH_TIMEOUT` on attempt 0, a
`Permission denied` failure on attempt 1 is authentication-class, so
acquisition stops after exactly two attempts with the enriched error from
attempt 1. -/
theorem connectWithRetry_bounds_witness :
    connectWithRetry (α := Unit)
        (fun i => if i = 0 then .error "SSH_TIMEOUT" else .error "Permission denied")
        "hpc.example.com" "22"
      = .error (enrichError "hpc.example.com" "22" (some "Permission denied")) ∧
    connectAttemptsMade (α := Unit)
        (fun i => if i = 0 then .error "SSH_TIMEOUT" else .error "Permission denied")
        "hpc.example.com" "22"
      = 2 :=
  (connectWithRetry_bounds "hpc.example.com" "22").2.1
    (fun i => if i = 0 then .error "SSH_TIMEOUT" else .error "Permission denied")
    1 "Permission denied" (by decide)
    (fun j hj => by
      interval_cases j
      exact ⟨"SSH_TIMEOUT", rfl, by decide⟩)
    rfl (by decide)

/-! ### C6 — GPU directive emitted exactly when a GPU is requested -/

/-- C6: with GPU count 0 the generated header contains no `--gres` directive
line; with GPU count `> 0` it contains exactly one, carrying the requested
count. -/
theorem header_gpu_directive (cfg : JobConfig) (jobDir : String) :
    (cfg.gpus = 0 →
      (buildHeaderLines cfg jobDir).filter (fun l => strStartsWith l "#SBATCH --gres") = []) ∧
    (0 < cfg.gpus →
      (buildHeaderLines cfg jobDir).filter (fun l => strStartsWith l "#SBATCH --gres")
        = ["#SBATCH --gres=gpu:" ++ toString cfg.gpus]) := by
  constructor
  · intro h
    simp only [buildHeaderLines, h]
    rfl
  · intro h
    obtain ⟨n, hn⟩ : ∃ n, cfg.gpus = n + 1 := ⟨cfg.gpus - 1, by omega⟩
    simp only [buildHeaderLines, hn, Nat.zero_lt_succ, if_true]
    rfl

/-- Witness for C6: a 0-GPU header has no `--gres` line; a 2-GPU header has
exactly the line `#SBATCH --gres=gpu:2`. -/
theorem header_gpu_directive_witness :
    ((buildHeaderLines { gpus := 0 } "/j").filter
        (fun l => strStartsWith l "#SBATCH --gres") = []) ∧
    ((buildHeaderLines { gpus := 2 } "/j").filter
        (fun l => strStartsWith l "#SBATCH --gres")
      = ["#SBATCH --gres=gpu:" ++ toString ({ gpus := 2 } : JobConfig).gpus]) :=
  ⟨(header_gpu_directive { gpus := 0 } "/j").1 rfl,
   (header_gpu_directive { gpus := 2 } "/j").2 (by decide)⟩

/-! ### C7 — the end-to-end compiled-native scenario -/

/-- C7: for the compiled-native job with CPU 4, GPU 0, memory `16G`, time
`02:00:00`, the header contains the three resource lines and no `--gres`
line (not even as a substring), the factory selects the C/C++ executor, the
execution command is the two-stage compile-then-run command, the execution
section redirects it to `execution_log.txt` / `execution_errors.txt`, and
the whole script builds successfully. -/
theorem compiled_native_scenario :
    ("#SBATCH --cpus-per-task=4" ∈ buildHeaderLines c7cfg c7jobDir) ∧
    ("#SBATCH --mem=16G" ∈ buildHeaderLines c7cfg c7jobDir) ∧
    ("#SBATCH --time=02:00:00" ∈ buildHeaderLines c7cfg c7jobDir) ∧
    ((buildHeaderLines c7cfg c7jobDir).filter (fun l => strContains l "--gres") = []) ∧
    (createExecutor c7cfg.fileName = .ok .cpp) ∧
    (buildExecutionCommand .cpp c7cfg c7jobDir c7cfg.fileName
      = "gcc prog.c -o prog.out -O2 -march=native  " ++ "\n" ++ "./prog.out") ∧
    ("(" ++ buildExecutionCommand .cpp c7cfg c7jobDir c7cfg.fileName ++
        ") > execution_log.txt 2> execution_errors.txt"
      ∈ buildExecutionLines c7cfg (buildExecutionCommand .cpp c7cfg c7jobDir c7cfg.fileName)) ∧
    isOkE (buildScript c7cfg demoCluster) = true :=
  ⟨by decide, by decide, by decide, by decide, rfl, rfl, by decide, by decide⟩

/-! ### C1 — submission is atomic with respect to the ledger -/

/-- C1: if any submission step fails — storage initialization, remote
directory creation, primary or auxiliary upload, script generation
(including recipe validation), the local script write, the script upload, or
the scheduler submission command — the ledger is left exactly as loaded; and
whenever submission returns successfully, the scheduler command succeeded
and exactly one record, with status `PENDING`, was appended. -/
theorem submitJob_ledger_atomic (env : RemoteEnv) (ci : ClusterInfo) (ledger : List LedgerJob)
    (filePath : String) (inputFiles : List String) (cfg0 : JobConfig) (now : DateTime) :
    (isOkE (submitJob env ci ledger filePath inputFiles cfg0 now).1 = false →
      (submitJob env ci ledger filePath inputFiles cfg0 now).2 = ledger) ∧
    (isOkE (submitJob env ci ledger filePath inputFiles cfg0 now).1 = true →
      isOkE (env.execCommand
        ("cd " ++ (ci.jobsDir ++ "/" ++ generateJobId now) ++ " && sbatch job.sbatch")) = true ∧
      ∃ r, (submitJob env ci ledger filePath inputFiles cfg0 now).2 = ledger ++ [r] ∧
        r.status = "PENDING") := by
  simp only [submitJob]
  cases h1 : env.ensureStorage with
  | error e => simp [isOkE]
  | ok u =>
    cases h2 : env.execCommand ("mkdir -p " ++ (ci.jobsDir ++ "/" ++ generateJobId now)) with
    | error e => simp [isOkE]
    | ok r2 =>
      cases h3 : env.uploadFile filePath
          ((ci.jobsDir ++ "/" ++ generateJobId now) ++ "/" ++ basename filePath) with
      | error e => simp [isOkE]
      | ok u3 =>
        cases h4 : uploadInputFiles env (ci.jobsDir ++ "/" ++ generateJobId now) inputFiles with
        | error e => simp [isOkE]
        | ok u4 =>
          cases h5 : buildScript (submitConfig cfg0 filePath inputFiles now) ci with
          | error e => simp [isOkE]
          | ok script =>
            cases h6 : env.writeTmpScript with
            | error e => simp [isOkE]
            | ok u6 =>
              cases h7 : env.uploadFile ("/tmp/job_" ++ generateJobId now ++ ".sbatch")
                  ((ci.jobsDir ++ "/" ++ generateJobId now) ++ "/job.sbatch") with
              | error e => simp [isOkE]
              | ok u7 =>
                cases h8 : env.execCommand
                    ("cd " ++ (ci.jobsDir ++ "/" ++ generateJobId now) ++
                      " && sbatch job.sbatch") with
                | error e => simp [isOkE]
                | ok r8 =>
                  refine ⟨by simp [isOkE], fun _ => ⟨by simp [isOkE], ?_⟩⟩
                  exact ⟨_, rfl, rfl⟩

/-- Witness for C1: with every remote step succeeding, submission appends
exactly one `PENDING` record to an empty ledger. -/
theorem submitJob_ledger_atomic_witness :
    isOkE (happyEnv.execCommand
      ("cd " ++ (demoCluster.jobsDir ++ "/" ++ generateJobId demoNow) ++
        " && sbatch job.sbatch")) = true ∧
    ∃ r, (submitJob happyEnv demoCluster [] "/home/alice/prog.c" [] c7cfg demoNow).2
        = [] ++ [r] ∧ r.status = "PENDING" :=
  (submitJob_ledger_atomic happyEnv demoCluster [] "/home/alice/prog.c" [] c7cfg demoNow).2
    rfl

/-! ### C3 — status resolution for a polled job -/

/-- C3: for a non-terminal job with a scheduler id, a non-empty queue answer
is adopted verbatim (trimmed); with an empty queue answer the metadata file
decides: a parsed snapshot whose `status` is a literal value (non-empty, no
`$`, no `[`) is adopted together with the snapshot; a parsed snapshot whose
`status` is not literal yields `COMPLETED`; an absent/empty file yields
`UNKNOWN`. -/
theorem pollJob_status_resolution (env : RemoteEnv) (job : LedgerJob) (sid : String)
    (hsid : job.slurmId = some sid) (hnc : job.status ≠ "COMPLETED")
    (hnf : job.status ≠ "FAILED") :
    (∀ r, env.execCommand (squeueCmd sid) = .ok r → strTrim r.stdout ≠ "" →
      pollJob env job = { job with status := strTrim r.stdout }) ∧
    (∀ r r2 sd s, env.execCommand (squeueCmd sid) = .ok r → strTrim r.stdout = "" →
      env.execCommand (catStatusCmd job.remoteDir) = .ok r2 → strTrim r2.stdout ≠ "" →
      env.parseStatusJson r2.stdout = some sd → sd.status = some s →
      s ≠ "" → strContains s "$" = false → strContains s "[" = false →
      pollJob env job = { job with status := s, statusData := some sd }) ∧
    (∀ r r2 sd, env.execCommand (squeueCmd sid) = .ok r → strTrim r.stdout = "" →
      env.execCommand (catStatusCmd job.remoteDir) = .ok r2 → strTrim r2.stdout ≠ "" →
      env.parseStatusJson r2.stdout = some sd →
      (sd.status = none ∨ ∃ s, sd.status = some s ∧
        (s = "" ∨ strContains s "$" = true ∨ strContains s "[" = true)) →
      pollJob env job = { job with status := "COMPLETED" }) ∧
    (∀ r r2, env.execCommand (squeueCmd sid) = .ok r → strTrim r.stdout = "" →
      env.execCommand (catStatusCmd job.remoteDir) = .ok r2 → strTrim r2.stdout = "" →
      pollJob env job = { job with status := "UNKNOWN" }) := by
  refine ⟨?_, ?_, ?_, ?_⟩
  · intro r hq hne
    simp [pollJob, hsid, hnc, hnf, hq, hne]
  · intro r r2 sd s hq hemp hcat hne hp hs hs1 hs2 hs3
    simp [pollJob, hsid, hnc, hnf, hq, hemp, checkStatusJson, hcat, hne, hp,
      statusFromSnap, hs, hs1, hs2, hs3]
  · intro r r2 sd hq hemp hcat hne hp hcase
    rcases hcase with h | ⟨s, hs, hbad⟩
    · simp [pollJob, hsid, hnc, hnf, hq, hemp, checkStatusJson, hcat, hne, hp,
        statusFromSnap, h]
    · rcases hbad with h1 | h1 | h1 <;>
        simp [pollJob, hsid, hnc, hnf, hq, hemp, checkStatusJson, hcat, hne, hp,
          statusFromSnap, hs, h1]
  · intro r r2 hq hemp hcat hemp2
    simp [pollJob, hsid, hnc, hnf, hq, hemp, checkStatusJson, hcat, hemp2]

/-- Witness for C3: a queue answer `RUNNING` is adopted (trimmed). -/
theorem pollJob_status_resolution_witness :
    pollJob runningEnv traversalJob = { traversalJob with status := "RUNNING" } :=
  (pollJob_status_resolution runningEnv traversalJob "12345" rfl
      (by decide) (by decide)).1 { stdout := "RUNNING\n" } rfl (by decide)

/-! ### C4 — per-job failure isolation in a poll pass -/

/-- C4: in a poll pass, a job whose status query fails (queue lookup error,
unreadable metadata, or unparsable metadata) is set to `UNKNOWN`; every
every other job has the same `pollJob` outcome it would have had anyway;
the persisted ledger is exactly the pass result and has one entry per input
job (the pass is total — no exception escapes). -/
theorem getJobStatus_isolated_failure (env : RemoteEnv) (jobs : List LedgerJob)
    (i : Nat) (j : LedgerJob) (sid : String)
    (hij : jobs[i]? = some j) (hsid : j.slurmId = some sid)
    (hnc : j.status ≠ "COMPLETED") (hnf : j.status ≠ "FAILED")
    (hfail : queryFails env j sid) :
    (getJobStatusPass env jobs)[i]? = some { j with status := "UNKNOWN" } ∧
    (∀ k j2, k ≠ i → jobs[k]? = some j2 →
      (getJobStatusPass env jobs)[k]? = some (pollJob env j2)) ∧
    (getJobStatus env jobs).1 = getJobStatusPass env jobs ∧
    (getJobStatusPass env jobs).length = jobs.length := by
  have hpoll : pollJob env j = { j with status := "UNKNOWN" } := by
    rcases hfail with ⟨e, he⟩ | ⟨r, hr, hemp, ⟨e, he⟩ | ⟨r2, hr2, hne, hp⟩⟩
    · simp [pollJob, hsid, hnc, hnf, he]
    · simp [pollJob, hsid, hnc, hnf, hr, hemp, checkStatusJson, he]
    · simp [pollJob, hsid, hnc, hnf, hr, hemp, checkStatusJson, hr2, hne, hp]
  refine ⟨?_, ?_, rfl, by simp [getJobStatusPass]⟩
  · simp [getJobStatusPass, List.getElem?_map, hij, hpoll]
  · intro k j2 _ hk
    simp [getJobStatusPass, List.getElem?_map, hk]

/-- Witness for C4: with the network down, the single pending job degrades
to `UNKNOWN` and the whole pass is persisted. -/
theorem getJobStatus_isolated_failure_witness :
    (getJobStatusPass downEnv [traversalJob])[0]? =
      some { traversalJob with status := "UNKNOWN" } ∧
    (∀ k j2, k ≠ 0 → ([traversalJob])[k]? = some j2 →
      (getJobStatusPass downEnv [traversalJob])[k]? = some (pollJob downEnv j2)) ∧
    (getJobStatus downEnv [traversalJob]).1 = getJobStatusPass downEnv [traversalJob] ∧
    (getJobStatusPass downEnv [traversalJob]).length = [traversalJob].length :=
  getJobStatus_isolated_failure downEnv [traversalJob] 0 traversalJob "12345"
    rfl rfl (by decide) (by decide) (Or.inl ⟨"connect ETIMEDOUT", rfl⟩)

/-! ### C9 — the poll pass does not touch terminal or id-less jobs -/

/-- C9: a ledger record that is terminal (`COMPLETED`/`FAILED`) or has no
scheduler id is returned by the poll pass — and persisted — entirely
unchanged, every field included. -/
theorem getJobStatus_frame_terminal (env : RemoteEnv) (jobs : List LedgerJob) :
    ∀ (i : Nat) (j : LedgerJob), jobs[i]? = some j →
      (j.status = "COMPLETED" ∨ j.status = "FAILED" ∨ j.slurmId = none) →
      (getJobStatusPass env jobs)[i]? = some j ∧ (getJobStatus env jobs).1[i]? = some j := by
  intro i j hij hcase
  have hpoll : pollJob env j = j := by
    rcases hcase with h | h | h
    · cases hs : j.slurmId with
      | none => simp [pollJob, hs]
      | some sid => simp [pollJob, hs, h]
    · cases hs : j.slurmId with
      | none => simp [pollJob, hs]
      | some sid => simp [pollJob, hs, h]
    · simp [pollJob, h]
  constructor
  · simp [getJobStatusPass, List.getElem?_map, hij, hpoll]
  · simp [getJobStatus, getJobStatusPass, List.getElem?_map, hij, hpoll]

/-- Witness for C9: a `COMPLETED` job passes through a failing-network poll
pass untouched and is persisted verbatim. -/
theorem getJobStatus_frame_terminal_witness :
    (getJobStatusPass downEnv [doneJob])[0]? = some doneJob ∧
    (getJobStatus downEnv [doneJob]).1[0]? = some doneJob :=
  getJobStatus_frame_terminal downEnv [doneJob] 0 doneJob rfl (Or.inl rfl)

/-! ### C8 — job ids are unique and chronologically ordered

The job id renders the broken-down UTC components in fixed-width zero-padded
big-endian order, so comparing ids character by character agrees with
comparing instants.  The lemmas below make that precise for the `lexLt`
order and the padded digit blocks. -/

/-- The rendered digit characters. -/
theorem digitChar_toNat {n : Nat} (h : n ≤ 9) : (digitChar n).toNat = 48 + n := by
  interval_cases n <;> rfl

/-- A digit character is never a dot. -/
theorem digitChar_notDot (n : Nat) : notDot (digitChar n) = true := by
  unfold digitChar
  split <;> decide

/-- A digit character is never a colon, so `colonToDash` fixes it. -/
theorem colonToDash_digitChar (n : Nat) : colonToDash (digitChar n) = digitChar n := by
  unfold digitChar
  split <;> rfl

/-- `takeWhile` passes over a block all of whose characters satisfy the
predicate. -/
theorem takeWhile_append_of_all {p : Char → Bool} {a : List Char}
    (h : ∀ c ∈ a, p c = true) (b : List Char) :
    (a ++ b).takeWhile p = a ++ b.takeWhile p := by
  induction a with
  | nil => simp
  | cons x xs ih =>
    have hx := h x (by simp)
    simp only [List.cons_append, List.takeWhile_cons, hx, if_true]
    rw [ih (fun c hc => h c (by simp [hc]))]

/-- The character-list form of a generated job id:
`YYYY-MM-DDTHH-MM-SS-mmm` with zero-padded components. -/
theorem generateJobId_data (dt : DateTime) :
    (generateJobId dt).data =
      pad4 dt.year ++ '-' :: pad2 dt.month ++ '-' :: pad2 dt.day ++ 'T' :: pad2 dt.hour ++
        '-' :: pad2 dt.minute ++ '-' :: pad2 dt.second ++ '-' :: pad3 dt.ms := by
  have hpad2 : ∀ n (b : List Char),
      (pad2 n ++ b).takeWhile notDot = pad2 n ++ b.takeWhile notDot := by
    intro n b
    refine takeWhile_append_of_all ?_ b
    intro c hc
    simp only [pad2, List.mem_cons, List.not_mem_nil, or_false] at hc
    rcases hc with h | h <;> (subst h; exact digitChar_notDot _)
  have hpad4 : ∀ n (b : List Char),
      (pad4 n ++ b).takeWhile notDot = pad4 n ++ b.takeWhile notDot := by
    intro n b
    refine takeWhile_append_of_all ?_ b
    intro c hc
    simp only [pad4, List.mem_cons, List.not_mem_nil, or_false] at hc
    rcases hc with h | h | h | h <;> (subst h; exact digitChar_notDot _)
  have hmap2 : ∀ n, (pad2 n).map colonToDash = pad2 n := by
    intro n
    simp [pad2, colonToDash_digitChar]
  have hmap4 : ∀ n, (pad4 n).map colonToDash = pad4 n := by
    intro n
    simp [pad4, colonToDash_digitChar]
  have h0 : (generateJobId dt).data =
      (((toISOString dt).data.takeWhile notDot).map colonToDash ++ ['-']) ++ pad3 dt.ms := rfl
  have hiso : (toISOString dt).data =
      pad4 dt.year ++ '-' :: pad2 dt.month ++ '-' :: pad2 dt.day ++ 'T' :: pad2 dt.hour ++
        ':' :: pad2 dt.minute ++ ':' :: pad2 dt.second ++ '.' :: (pad3 dt.ms ++ ['Z']) := rfl
  have nd1 : notDot '-' = true := rfl
  have nd2 : notDot 'T' = true := rfl
  have nd3 : notDot ':' = true := rfl
  have nd4 : notDot '.' = false := rfl
  have cd1 : colonToDash '-' = '-' := rfl
  have cd2 : colonToDash 'T' = 'T' := rfl
  have cd3 : colonToDash ':' = '-' := rfl
  rw [h0, hiso]
  simp only [List.append_assoc, List.cons_append]
  rw [hpad4, List.takeWhile_cons, nd1, if_pos rfl]
  rw [hpad2, List.takeWhile_cons, nd1, if_pos rfl]
  rw [hpad2, List.takeWhile_cons, nd2, if_pos rfl]
  rw [hpad2, List.takeWhile_cons, nd3, if_pos rfl]
  rw [hpad2, List.takeWhile_cons, nd3, if_pos rfl]
  rw [hpad2, List.takeWhile_cons, nd4]
  simp only [Bool.false_eq_true, if_false, List.append_nil]
  simp only [List.map_append, List.map_cons, hmap2, hmap4, cd1, cd2, cd3]
  simp [List.append_assoc]

/-- `lexLt` is irreflexive. -/
theorem lexLt_irrefl (l : List Char) : lexLt l l = false := by
  induction l with
  | nil => rfl
  | cons a as ih => simp [lexLt, ih]

/-- A `lexLt`-smaller list is distinct. -/
theorem lexLt_ne {a b : List Char} (h : lexLt a b = true) : a ≠ b := by
  intro he
  subst he
  rw [lexLt_irrefl] at h
  cases h

/-- A common prefix does not affect `lexLt`. -/
theorem lexLt_append_same (as cs ds : List Char) :
    lexLt (as ++ cs) (as ++ ds) = lexLt cs ds := by
  induction as with
  | nil => rfl
  | cons a as ih => simp [lexLt, ih]

/-- A common head does not affect `lexLt`. -/
theorem lexLt_cons_same (c : Char) (cs ds : List Char) :
    lexLt (c :: cs) (c :: ds) = lexLt cs ds :=
  lexLt_append_same [c] cs ds

/-- Strict comparison of equal-length blocks decides `lexLt` regardless of
the tails. -/
theorem lexLt_append_left {as bs : List Char} (h : lexLt as bs = true)
    (hlen : as.length = bs.length) (cs ds : List Char) :
    lexLt (as ++ cs) (bs ++ ds) = true := by
  induction as generalizing bs with
  | nil =>
    cases bs with
    | nil => simp [lexLt] at h
    | cons b bs => simp at hlen
  | cons a as ih =>
    cases bs with
    | nil => simp at hlen
    | cons b bs =>
      simp only [List.cons_append, lexLt] at h ⊢
      by_cases h1 : a.toNat < b.toNat
      · simp [h1]
      · by_cases h2 : b.toNat < a.toNat
        · simp [h1, h2] at h
        · simp only [h1, h2, if_false] at h ⊢
          exact ih h (by simpa using hlen)

/-- Two-digit blocks compare like their values. -/
theorem pad2_lexLt {n m : Nat} (h : n < m) (hm : m ≤ 99) : lexLt (pad2 n) (pad2 m) = true := by
  rcases Nat.lt_or_ge (n / 10) (m / 10) with hd | hd
  · have hlt : (digitChar (n / 10)).toNat < (digitChar (m / 10)).toNat := by
      rw [digitChar_toNat (by omega), digitChar_toNat (by omega)]
      omega
    simp [pad2, lexLt, hlt]
  · have heq : n / 10 = m / 10 := by omega
    have hlt : (digitChar (n % 10)).toNat < (digitChar (m % 10)).toNat := by
      rw [digitChar_toNat (by omega), digitChar_toNat (by omega)]
      omega
    simp [pad2, heq, lexLt, hlt]

/-- Three-digit blocks compare like their values. -/
theorem pad3_lexLt {n m : Nat} (h : n < m) (hm : m ≤ 999) : lexLt (pad3 n) (pad3 m) = true := by
  rcases Nat.lt_or_ge (n / 100) (m / 100) with hd | hd
  · have hlt : (digitChar (n / 100)).toNat < (digitChar (m / 100)).toNat := by
      rw [digitChar_toNat (by omega), digitChar_toNat (by omega)]
      omega
    simp [pad3, lexLt, hlt]
  · have heq : n / 100 = m / 100 := by omega
    rcases Nat.lt_or_ge (n / 10 % 10) (m / 10 % 10) with hd2 | hd2
    · have hlt : (digitChar (n / 10 % 10)).toNat < (digitChar (m / 10 % 10)).toNat := by
        rw [digitChar_toNat (by omega), digitChar_toNat (by omega)]
        omega
      simp [pad3, heq, lexLt, hlt]
    · have heq2 : n / 10 % 10 = m / 10 % 10 := by omega
      have hlt : (digitChar (n % 10)).toNat < (digitChar (m % 10)).toNat := by
        rw [digitChar_toNat (by omega), digitChar_toNat (by omega)]
        omega
      simp [pad3, heq, heq2, lexLt, hlt]

/-- Four-digit blocks compare like their values. -/
theorem pad4_lexLt {n m : Nat} (h : n < m) (hm : m ≤ 9999) : lexLt (pad4 n) (pad4 m) = true := by
  rcases Nat.lt_or_ge (n / 1000) (m / 1000) with hd | hd
  · have hlt : (digitChar (n / 1000)).toNat < (digitChar (m / 1000)).toNat := by
      rw [digitChar_toNat (by omega), digitChar_toNat (by omega)]
      omega
    simp [pad4, lexLt, hlt]
  · have heq : n / 1000 = m / 1000 := by omega
    rcases Nat.lt_or_ge (n / 100 % 10) (m / 100 % 10) with hd2 | hd2
    · have hlt : (digitChar (n / 100 % 10)).toNat < (digitChar (m / 100 % 10)).toNat := by
        rw [digitChar_toNat (by omega), digitChar_toNat (by omega)]
        omega
      simp [pad4, heq, lexLt, hlt]
    · have heq2 : n / 100 % 10 = m / 100 % 10 := by omega
      rcases Nat.lt_or_ge (n / 10 % 10) (m / 10 % 10) with hd3 | hd3
      · have hlt : (digitChar (n / 10 % 10)).toNat < (digitChar (m / 10 % 10)).toNat := by
          rw [digitChar_toNat (by omega), digitChar_toNat (by omega)]
          omega
        simp [pad4, heq, heq2, lexLt, hlt]
      · have heq3 : n / 10 % 10 = m / 10 % 10 := by omega
        have hlt : (digitChar (n % 10)).toNat < (digitChar (m % 10)).toNat := by
          rw [digitChar_toNat (by omega), digitChar_toNat (by omega)]
          omega
        simp [pad4, heq, heq2, heq3, lexLt, hlt]

/-- C8: for two job-id generations at distinct instants (valid broken-down
UTC times, the earlier one first), the generated identifiers are distinct
and the earlier identifier is lexicographically smaller. -/
theorem generateJobId_chrono_order (d1 d2 : DateTime) (_h1 : ValidDT d1) (h2 : ValidDT d2)
    (hlt : chronoLt d1 d2) :
    lexLt (generateJobId d1).data (generateJobId d2).data = true ∧
    generateJobId d1 ≠ generateJobId d2 := by
  obtain ⟨hy9999, _, hmo12, _, hd31, hh23, hmi59, hs59, hms999⟩ := h2
  have main : lexLt (generateJobId d1).data (generateJobId d2).data = true := by
    rw [generateJobId_data d1, generateJobId_data d2]
    simp only [List.append_assoc, List.cons_append]
    rcases hlt with hy | ⟨hy, hmo | ⟨hmo, hd | ⟨hd, hh | ⟨hh, hmi | ⟨hmi, hs | ⟨hs, hms⟩⟩⟩⟩⟩⟩
    · exact lexLt_append_left (pad4_lexLt hy hy9999) rfl _ _
    · rw [hy, lexLt_append_same, lexLt_cons_same]
      exact lexLt_append_left (pad2_lexLt hmo (by omega)) rfl _ _
    · rw [hy, hmo, lexLt_append_same, lexLt_cons_same, lexLt_append_same, lexLt_cons_same]
      exact lexLt_append_left (pad2_lexLt hd (by omega)) rfl _ _
    · rw [hy, hmo, hd, lexLt_append_same, lexLt_cons_same, lexLt_append_same,
        lexLt_cons_same, lexLt_append_same, lexLt_cons_same]
      exact lexLt_append_left (pad2_lexLt hh (by omega)) rfl _ _
    · rw [hy, hmo, hd, hh, lexLt_append_same, lexLt_cons_same, lexLt_append_same,
        lexLt_cons_same, lexLt_append_same, lexLt_cons_same, lexLt_append_same,
        lexLt_cons_same]
      exact lexLt_append_left (pad2_lexLt hmi (by omega)) rfl _ _
    · rw [hy, hmo, hd, hh, hmi, lexLt_append_same, lexLt_cons_same, lexLt_append_same,
        lexLt_cons_same, lexLt_append_same, lexLt_cons_same, lexLt_append_same,
        lexLt_cons_same, lexLt_append_same, lexLt_cons_same]
      exact lexLt_append_left (pad2_lexLt hs (by omega)) rfl _ _
    · rw [hy, hmo, hd, hh, hmi, hs, lexLt_append_same, lexLt_cons_same, lexLt_append_same,
        lexLt_cons_same, lexLt_append_same, lexLt_cons_same, lexLt_append_same,
        lexLt_cons_same, lexLt_append_same, lexLt_cons_same, lexLt_append_same,
        lexLt_cons_same]
      exact pad3_lexLt hms hms999
  refine ⟨main, fun he => ?_⟩
  exact lexLt_ne main (congrArg String.data he)

/-- Witness for C8: two instants one millisecond apart give distinct,
lexicographically ordered identifiers. -/
theorem generateJobId_chrono_order_witness :
    lexLt (generateJobId demoNow).data (generateJobId demoLater).data = true ∧
    generateJobId demoNow ≠ generateJobId demoLater :=
  generateJobId_chrono_order demoNow demoLater (by unfold ValidDT; decide)
    (by unfold ValidDT; decide) (by unfold chronoLt; decide)

end HpcConnector
